import Mathlib

/-!
Verification of the He-3 polarization / neutron spin-filter calculator.

This file shallowly embeds the calculation core of the repository:
the physical-constant table and formula engine of the main plot component
(`calculateCommonFactors`, `calculateNeutronPolarization`,
`calculateNeutronTransmission`, `calculateFigureOfMerit`, the inline
exponential-decay expression), the series generators
(`calculateHe3Polarization`, `calculateNeutronProperties` in linear and
log mode), the committed-parameter state and its two commit buttons, the
lenient `Number(s) || default` axis-range fallback, and the CSV
export/import round trip of the measured-data component.

JavaScript numbers are embedded as real numbers (`ℝ`), with exact
arithmetic in place of IEEE rounding.  Where a property hinges on the
special values NaN / Infinity (the falsy fallback, log10 of non-positive
bounds) we use `JSNum`, reals extended with the three special values and
the JavaScript semantics of the operations involved.
-/

namespace He3

/-! ### Physical constants and formula engine (main plot component) -/

/-- Constant table `PHYSICAL_CONSTANTS.V`: molar volume in cm^3/mol. -/
noncomputable def PHYSICAL_CONSTANTS_V : ℝ := 22.4e3

/-- Constant table `PHYSICAL_CONSTANTS.Na`: Avogadro number per mol. -/
noncomputable def PHYSICAL_CONSTANTS_Na : ℝ := 6.0221409e23

/-- Constant table `PHYSICAL_CONSTANTS.sigma0`: absorption cross-section in barn at 1.8 angstrom. -/
noncomputable def PHYSICAL_CONSTANTS_sigma0 : ℝ := 5333

/-- Constant table `PHYSICAL_CONSTANTS.barn_to_cm2`: barn to cm^2 conversion. -/
noncomputable def PHYSICAL_CONSTANTS_barn_to_cm2 : ℝ := 1e-24

/-- Function `calculateCommonFactors` of the current main component: the number
density is the hard-coded `n = 2.687e19` and the cross-section scales linearly
from its 1.8-angstrom reference value. -/
noncomputable def calculateCommonFactors (wavelength : ℝ) : ℝ :=
  2.687e19 * (PHYSICAL_CONSTANTS_sigma0 * (wavelength / 1.8)) * PHYSICAL_CONSTANTS_barn_to_cm2

/-- Function `calculateCommonFactors` of the earlier variant of the component,
which derives the number density from the molar volume: `n = Na / V`. -/
noncomputable def calculateCommonFactorsMolar (wavelength : ℝ) : ℝ :=
  PHYSICAL_CONSTANTS_Na / PHYSICAL_CONSTANTS_V *
    (PHYSICAL_CONSTANTS_sigma0 * (wavelength / 1.8)) * PHYSICAL_CONSTANTS_barn_to_cm2

/-- Function `calculateNeutronPolarization`: `tanh(nσ · P_He · t) · 100`. -/
noncomputable def calculateNeutronPolarization
    (wavelength he3Polarization gasThickness : ℝ) : ℝ :=
  Real.tanh (calculateCommonFactors wavelength * he3Polarization * gasThickness) * 100

/-- Function `calculateNeutronTransmission`:
`factor = nσ·t`, result `exp(-factor) · cosh(factor · P_He) · 100`. -/
noncomputable def calculateNeutronTransmission
    (wavelength he3Polarization gasThickness : ℝ) : ℝ :=
  let commonFactor := calculateCommonFactors wavelength
  let factor := commonFactor * gasThickness
  Real.exp (-factor) * Real.cosh (factor * he3Polarization) * 100

/-- Function `calculateNeutronTransmission` of the earlier (molar-density) variant;
the formula is identical, only the common factor differs. -/
noncomputable def calculateNeutronTransmissionMolar
    (wavelength he3Polarization gasThickness : ℝ) : ℝ :=
  let commonFactor := calculateCommonFactorsMolar wavelength
  let factor := commonFactor * gasThickness
  Real.exp (-factor) * Real.cosh (factor * he3Polarization) * 100

/-- Function `calculateFigureOfMerit`: recomputes the polarization and
transmission fractions and returns `Pn² · T · 100`. -/
noncomputable def calculateFigureOfMerit
    (wavelength he3Polarization gasThickness : ℝ) : ℝ :=
  let commonFactor := calculateCommonFactors wavelength
  let factor := commonFactor * gasThickness
  let neutronPolarization := Real.tanh (commonFactor * he3Polarization * gasThickness)
  let neutronTransmission := Real.exp (-factor) * Real.cosh (factor * he3Polarization)
  neutronPolarization * neutronPolarization * neutronTransmission * 100

/-- Expression `Math.sqrt(81.81 / x)` used by `addDataPoint` to convert an
energy sample (meV) to a wavelength (angstrom); the spec names it
`wavelengthFromEnergy`. -/
noncomputable def wavelengthFromEnergy (energy : ℝ) : ℝ :=
  Real.sqrt (81.81 / energy)

/-- Expression `81.81 / (x * x)` used by `addDataPoint` to convert a wavelength
sample (angstrom) to an energy (meV); the spec names it `energyFromWavelength`. -/
noncomputable def energyFromWavelength (wavelength : ℝ) : ℝ :=
  81.81 / (wavelength * wavelength)

/-- Inline decay expression of `calculateHe3Polarization`
(`initialPolarization * Math.exp(-time / relaxationTimeConstant)`); the spec
names it `he3Decay`. -/
noncomputable def he3Decay (t P0 T1 : ℝ) : ℝ :=
  P0 * Real.exp (-t / T1)

/-! ### Parameter state (main plot component) -/

/-- Enumeration backing the `xAxisUnit` field. -/
inductive XAxisUnit where
  | wavelength
  | energy
deriving DecidableEq

/-- Interface `NeutronParams` of the current main component: gas thickness in
atm·cm, representative energy in meV, He-3 polarization in percent. -/
structure NeutronParams where
  gasThickness : ℝ
  energy : ℝ
  he3Polarization : ℝ

/-- Interface `Params` (`BaseCalculationParams` plus neutron parameters and the
x-axis unit). -/
structure Params where
  initialPolarization : ℝ
  relaxationTimeConstant : ℝ
  xAxisUnit : XAxisUnit
  neutronParams : NeutronParams

/-- Initial `useState` value of the committed parameters. -/
noncomputable def defaultParams : Params :=
  { initialPolarization := 70.0
    relaxationTimeConstant := 100.0
    xAxisUnit := XAxisUnit.wavelength
    neutronParams :=
      { gasThickness := 10.0
        energy := 14.7
        he3Polarization := 70 } }

/-- He-3 "Set Parameters" button of the current main component: spreads the
committed params and copies `initialPolarization`, `relaxationTimeConstant`
and the whole `neutronParams` sub-object out of the edit buffer. -/
def he3CommitParams (params tempParams : Params) : Params :=
  { params with
    initialPolarization := tempParams.initialPolarization
    relaxationTimeConstant := tempParams.relaxationTimeConstant
    neutronParams := tempParams.neutronParams }

/-- He-3 "Set Parameters" button of the earlier variant of the component: it
copies only `initialPolarization` and `relaxationTimeConstant` out of the edit
buffer (that variant stores a wavelength instead of an energy in its neutron
sub-object, which does not affect the commit logic embedded here). -/
def he3CommitParamsEarlier (params tempParams : Params) : Params :=
  { params with
    initialPolarization := tempParams.initialPolarization
    relaxationTimeConstant := tempParams.relaxationTimeConstant }

/-- Neutron "Set Parameters" button: spreads the committed params and copies
only the `neutronParams` sub-object out of the edit buffer. -/
def neutronCommitParams (params tempParams : Params) : Params :=
  { params with neutronParams := tempParams.neutronParams }

/-! ### Series generators (main plot component) -/

/-- Record pushed onto the output array by the series generators (interface
`DataPoint` of the main component). -/
structure DataPoint where
  time : ℝ
  wavelength : ℝ
  energy : ℝ
  he3Polarization : ℝ
  neutronPolarization : ℝ
  neutronTransmission : ℝ
  figureOfMerit : ℝ

/-- Helper `addDataPoint`: computes the point pushed for one swept coordinate
`x` of the neutron chart (`x` is a wavelength or an energy depending on
`xAxisUnit`; the companion unit is derived via the `81.81` relation). -/
noncomputable def addDataPoint (x : ℝ) (currentParams : Params) : DataPoint :=
  let wavelength :=
    match currentParams.xAxisUnit with
    | XAxisUnit.wavelength => x
    | XAxisUnit.energy => wavelengthFromEnergy x
  let energy :=
    match currentParams.xAxisUnit with
    | XAxisUnit.wavelength => energyFromWavelength x
    | XAxisUnit.energy => x
  { time := 0
    wavelength := wavelength
    energy := energy
    he3Polarization := currentParams.neutronParams.he3Polarization
    neutronPolarization :=
      calculateNeutronPolarization wavelength
        (currentParams.neutronParams.he3Polarization / 100)
        currentParams.neutronParams.gasThickness
    neutronTransmission :=
      calculateNeutronTransmission wavelength
        (currentParams.neutronParams.he3Polarization / 100)
        currentParams.neutronParams.gasThickness
    figureOfMerit :=
      calculateFigureOfMerit wavelength
        (currentParams.neutronParams.he3Polarization / 100)
        currentParams.neutronParams.gasThickness }

/-- Accumulating `for (let x = x0; x <= xMax; x += step)` loop shared by the
He-3 time sweep and the linear neutron sweep.  The JavaScript loop is
unbounded, so the embedding takes an explicit iteration budget `fuel`; the
predicate `linLoopTerminates` below characterises when the source loop stops,
and `linSweepAux_stable` shows the budget is then irrelevant. -/
noncomputable def linSweepAux (xMax step : ℝ) : ℕ → ℝ → List ℝ
  | 0, _ => []
  | fuel + 1, x => if x ≤ xMax then x :: linSweepAux xMax step fuel (x + step) else []

/-- Termination of the accumulating loop started at `xMin`: in exact
arithmetic the loop variable after `i` increments is `xMin + i · step`, so the
loop stops exactly when some iterate exceeds `xMax`. -/
def linLoopTerminates (xMin xMax step : ℝ) : Prop :=
  ∃ i : ℕ, xMax < xMin + (i : ℝ) * step

/-- Point computed by one iteration of the `calculateHe3Polarization` loop:
the decayed He-3 polarization together with the companion neutron quantities
at the fixed representative energy. -/
noncomputable def he3DecayPoint (time : ℝ) (currentParams : Params) : DataPoint :=
  let he3Polarization := he3Decay time currentParams.initialPolarization
    currentParams.relaxationTimeConstant
  let wavelength := Real.sqrt (81.81 / currentParams.neutronParams.energy)
  { time := time
    wavelength := wavelength
    energy := currentParams.neutronParams.energy
    he3Polarization := he3Polarization
    neutronPolarization :=
      Real.tanh (calculateCommonFactors wavelength * (he3Polarization / 100) *
        currentParams.neutronParams.gasThickness) * 100
    neutronTransmission :=
      Real.exp (-(calculateCommonFactors wavelength * currentParams.neutronParams.gasThickness)) *
        Real.cosh (he3Polarization / 100 * currentParams.neutronParams.gasThickness *
          calculateCommonFactors wavelength) * 100
    figureOfMerit := 0 }

/-- Series generator `calculateHe3Polarization`: time sweep over
`[xMin, xMax]` in 100 steps (`step = (xMax - xMin) / 100`), with `xMin`/`xMax`
the fallback-resolved axis bounds. -/
noncomputable def calculateHe3Polarization
    (xMin xMax : ℝ) (currentParams : Params) (fuel : ℕ) : List DataPoint :=
  (linSweepAux xMax ((xMax - xMin) / 100) fuel xMin).map
    fun t => he3DecayPoint t currentParams

/-- Linear branch of `calculateNeutronProperties`: `numPoints = 200`,
`step = (xMax - xMin) / 200` (in linear mode `effectiveXMin` is `xMin`). -/
noncomputable def calculateNeutronPropertiesLinear
    (xMin xMax : ℝ) (currentParams : Params) (fuel : ℕ) : List DataPoint :=
  (linSweepAux xMax ((xMax - xMin) / 200) fuel xMin).map
    fun x => addDataPoint x currentParams

/-- Swept coordinate `Math.pow(10, logMin + i * logStep)` of the i-th sample
of the log branch of `calculateNeutronProperties`, in exact real arithmetic
(`effectiveXMin = max(0.1, xMin)`). -/
noncomputable def logSweepX (xMin xMax : ℝ) (i : ℕ) : ℝ :=
  let effectiveXMin := max 0.1 xMin
  let logMin := Real.logb 10 effectiveXMin
  let logMax := Real.logb 10 xMax
  let logStep := (logMax - logMin) / 200
  (10 : ℝ) ^ (logMin + (i : ℝ) * logStep)

/-- Swept coordinates of the log branch: the counted loop
`for (let i = 0; i <= numPoints; i++)` with `numPoints = 200`. -/
noncomputable def logSweepXs (xMin xMax : ℝ) : List ℝ :=
  (List.range 201).map (logSweepX xMin xMax)

/-- Log branch of `calculateNeutronProperties`. -/
noncomputable def calculateNeutronPropertiesLog
    (xMin xMax : ℝ) (currentParams : Params) : List DataPoint :=
  (logSweepXs xMin xMax).map fun x => addDataPoint x currentParams

/-! ### JavaScript number semantics for the fallback and the log sweep

`JSNum` extends the reals with NaN and the two infinities, enough to state
properties that hinge on the special values.  Finite arithmetic is exact
(IEEE rounding is not modelled); the special-value cases follow the
JavaScript semantics of the operations used by the source. -/

/-- JavaScript number: NaN, the two infinities, or a finite value. -/
inductive JSNum where
  | nan
  | posInf
  | negInf
  | fin (x : ℝ)

/-- Fallback `v || d` as applied to a parsed number: NaN and 0 are the falsy
numbers, anything else passes through (the negative zero of IEEE, also falsy,
is identified with 0 here). -/
noncomputable def jsOr (v d : JSNum) : JSNum :=
  match v with
  | JSNum.nan => d
  | JSNum.fin x => if x = 0 then d else JSNum.fin x
  | w => w

/-- Resolved He-3 chart lower bound: `Number(axisRanges.he3.xMin) || 0`. -/
noncomputable def he3XMinResolved (raw : JSNum) : JSNum := jsOr raw (JSNum.fin 0)

/-- Resolved He-3 chart upper bound: `Number(axisRanges.he3.xMax) || 24`. -/
noncomputable def he3XMaxResolved (raw : JSNum) : JSNum := jsOr raw (JSNum.fin 24)

/-- Resolved neutron chart lower bound: `Number(axisRanges.neutron.xMin) || 0`. -/
noncomputable def neutronXMinResolved (raw : JSNum) : JSNum := jsOr raw (JSNum.fin 0)

/-- Resolved neutron chart upper bound: `Number(axisRanges.neutron.xMax) || 10`. -/
noncomputable def neutronXMaxResolved (raw : JSNum) : JSNum := jsOr raw (JSNum.fin 10)

/-- JavaScript unary negation. -/
noncomputable def jsNeg : JSNum → JSNum
  | JSNum.nan => JSNum.nan
  | JSNum.posInf => JSNum.negInf
  | JSNum.negInf => JSNum.posInf
  | JSNum.fin x => JSNum.fin (-x)

/-- JavaScript addition. -/
noncomputable def jsAdd : JSNum → JSNum → JSNum
  | JSNum.nan, _ => JSNum.nan
  | _, JSNum.nan => JSNum.nan
  | JSNum.posInf, JSNum.negInf => JSNum.nan
  | JSNum.negInf, JSNum.posInf => JSNum.nan
  | JSNum.posInf, _ => JSNum.posInf
  | _, JSNum.posInf => JSNum.posInf
  | JSNum.negInf, _ => JSNum.negInf
  | _, JSNum.negInf => JSNum.negInf
  | JSNum.fin a, JSNum.fin b => JSNum.fin (a + b)

/-- JavaScript subtraction, as addition of the negation. -/
noncomputable def jsSub (a b : JSNum) : JSNum := jsAdd a (jsNeg b)

/-- JavaScript multiplication: `0 · ±∞` is NaN. -/
noncomputable def jsMul : JSNum → JSNum → JSNum
  | JSNum.nan, _ => JSNum.nan
  | _, JSNum.nan => JSNum.nan
  | JSNum.posInf, JSNum.posInf => JSNum.posInf
  | JSNum.posInf, JSNum.negInf => JSNum.negInf
  | JSNum.negInf, JSNum.posInf => JSNum.negInf
  | JSNum.negInf, JSNum.negInf => JSNum.posInf
  | JSNum.posInf, JSNum.fin b =>
    if 0 < b then JSNum.posInf else if b < 0 then JSNum.negInf else JSNum.nan
  | JSNum.fin a, JSNum.posInf =>
    if 0 < a then JSNum.posInf else if a < 0 then JSNum.negInf else JSNum.nan
  | JSNum.negInf, JSNum.fin b =>
    if 0 < b then JSNum.negInf else if b < 0 then JSNum.posInf else JSNum.nan
  | JSNum.fin a, JSNum.negInf =>
    if 0 < a then JSNum.negInf else if a < 0 then JSNum.posInf else JSNum.nan
  | JSNum.fin a, JSNum.fin b => JSNum.fin (a * b)

/-- JavaScript division (signed zero is identified with 0, so a finite value
divided by zero takes the sign of the numerator). -/
noncomputable def jsDiv : JSNum → JSNum → JSNum
  | JSNum.nan, _ => JSNum.nan
  | _, JSNum.nan => JSNum.nan
  | JSNum.posInf, JSNum.posInf => JSNum.nan
  | JSNum.posInf, JSNum.negInf => JSNum.nan
  | JSNum.negInf, JSNum.posInf => JSNum.nan
  | JSNum.negInf, JSNum.negInf => JSNum.nan
  | JSNum.posInf, JSNum.fin b => if 0 ≤ b then JSNum.posInf else JSNum.negInf
  | JSNum.negInf, JSNum.fin b => if 0 ≤ b then JSNum.negInf else JSNum.posInf
  | JSNum.fin _, JSNum.posInf => JSNum.fin 0
  | JSNum.fin _, JSNum.negInf => JSNum.fin 0
  | JSNum.fin a, JSNum.fin b =>
    if b = 0 then
      if a = 0 then JSNum.nan else if 0 < a then JSNum.posInf else JSNum.negInf
    else JSNum.fin (a / b)

/-- JavaScript `Math.max` of a finite constant and a value: NaN-propagating. -/
noncomputable def jsMax : JSNum → JSNum → JSNum
  | JSNum.nan, _ => JSNum.nan
  | _, JSNum.nan => JSNum.nan
  | JSNum.posInf, _ => JSNum.posInf
  | _, JSNum.posInf => JSNum.posInf
  | JSNum.negInf, w => w
  | w, JSNum.negInf => w
  | JSNum.fin a, JSNum.fin b => JSNum.fin (max a b)

/-- JavaScript `Math.log10`: NaN on negative arguments, `-∞` at 0. -/
noncomputable def jsLog10 : JSNum → JSNum
  | JSNum.nan => JSNum.nan
  | JSNum.posInf => JSNum.posInf
  | JSNum.negInf => JSNum.nan
  | JSNum.fin x =>
    if x < 0 then JSNum.nan
    else if x = 0 then JSNum.negInf
    else JSNum.fin (Real.logb 10 x)

/-- JavaScript `Math.pow(10, e)`. -/
noncomputable def jsPow10 : JSNum → JSNum
  | JSNum.nan => JSNum.nan
  | JSNum.posInf => JSNum.posInf
  | JSNum.negInf => JSNum.fin 0
  | JSNum.fin e => JSNum.fin ((10 : ℝ) ^ e)

/-- Swept coordinate of the i-th sample of the log branch of
`calculateNeutronProperties` under JavaScript number semantics, starting from
the raw parsed axis-range fields (the `|| 0` / `|| 10` fallbacks of the
source are applied first, then `effectiveXMin = Math.max(0.1, xMin)`). -/
noncomputable def jsLogSweepX (xMinRaw xMaxRaw : JSNum) (i : ℕ) : JSNum :=
  let xMin := neutronXMinResolved xMinRaw
  let xMax := neutronXMaxResolved xMaxRaw
  let effectiveXMin := jsMax (JSNum.fin 0.1) xMin
  let logMin := jsLog10 effectiveXMin
  let logMax := jsLog10 xMax
  let logStep := jsDiv (jsSub logMax logMin) (JSNum.fin 200)
  jsPow10 (jsAdd logMin (jsMul (JSNum.fin (i : ℝ)) logStep))

/-- All 201 swept coordinates of the log branch under JavaScript number
semantics. -/
noncomputable def jsLogSweepXs (xMinRaw xMaxRaw : JSNum) : List JSNum :=
  (List.range 201).map (jsLogSweepX xMinRaw xMaxRaw)

/-! ### Decay-calculator component -/

/-- Interface `CalculationParams` of the standalone decay-calculator component. -/
structure CalculationParams where
  gasThickness : ℝ
  initialPolarization : ℝ
  relaxationTimeConstant : ℝ

/-- Function `calculatePolarization` of the decay-calculator component: the
time argument is in minutes and is converted to hours before the decay. -/
noncomputable def calculatePolarization (time : ℝ) (params : CalculationParams) : ℝ :=
  let timeInHours := time / 60
  params.initialPolarization * Real.exp (-timeInHours / params.relaxationTimeConstant)

/-! ### CSV export / import (measured-data component)

Text is embedded as `List Char`; `String.split('\n')`, `String.split(',')` and
`String.trim` are embedded as the character-level functions below.  The
component serialises each numeric value with JavaScript number-to-string
formatting and parses it back with `Number`; those two platform primitives are
abstracted as a pair `toStr` / `parse` of functions on an arbitrary linearly
ordered value type, constrained (in the round-trip theorem) by the properties
the platform guarantees: parsing inverts printing, and a printed number is a
non-empty token free of commas, newlines and whitespace. -/

/-- Whitespace test backing `String.trim` (the ASCII whitespace characters
relevant to CSV content). -/
def isJsWhitespace (c : Char) : Bool :=
  c = ' ' || c = '\t' || c = '\n' || c = '\r'

/-- Embedding of `text.split(c)` for a single-character separator: JavaScript
split on every occurrence, keeping empty segments. -/
def splitOnChar (c : Char) : List Char → List (List Char)
  | [] => [[]]
  | a :: rest =>
    if a = c then [] :: splitOnChar c rest
    else
      match splitOnChar c rest with
      | [] => [[a]]
      | r :: rs => (a :: r) :: rs

/-- Embedding of `array.join(c)` for a single-character separator. -/
def joinWith (c : Char) : List (List Char) → List Char
  | [] => []
  | [l] => l
  | l :: ls => l ++ c :: joinWith c ls

/-- Embedding of `line.trim()`: strip leading and trailing whitespace. -/
def trimChars (cs : List Char) : List Char :=
  ((cs.dropWhile isJsWhitespace).reverse.dropWhile isJsWhitespace).reverse

/-- Interface `DataPoint` of the measured-data component (the optional
`theoretical` field is never populated by export/import and is omitted). -/
structure CsvPoint (α : Type) where
  time : α
  polarization : α

/-- Header line `Time (min),Polarization (%)` of the exported CSV. -/
def headerChars : List Char := "Time (min),Polarization (%)".data

/-- One exported row: the time, a comma, the polarization. -/
def exportRow {α : Type} (toStr : α → List Char) (p : CsvPoint α) : List Char :=
  toStr p.time ++ ',' :: toStr p.polarization

/-- Handler `handleExportData`: the header, a newline, and the rows joined
with newlines. -/
def handleExportData {α : Type} (toStr : α → List Char) (data : List (CsvPoint α)) :
    List Char :=
  headerChars ++ '\n' :: joinWith '\n' (data.map (exportRow toStr))

/-- Row parse of `handleImportData`: split the line on commas, `Number` the
first two cells, keep the row only if both parse. -/
def parseCsvRow {α : Type} (parse : List Char → Option α) (line : List Char) :
    Option (CsvPoint α) :=
  match (splitOnChar ',' line).map parse with
  | t? :: p? :: _ =>
    match t?, p? with
    | some t, some p => some { time := t, polarization := p }
    | _, _ => none
  | _ => none

/-- Final `sort((a, b) => a.time - b.time)` of the import handler: a stable
ascending sort on the time field. -/
def sortByTime {α : Type} [LinearOrder α] (l : List (CsvPoint α)) : List (CsvPoint α) :=
  List.insertionSort (fun p q => p.time ≤ q.time) l

/-- Handler `handleImportData`: split the text into lines, skip the header
line, trim each remaining line, skip empty lines and lines that fail numeric
parse, and sort the surviving points by time. -/
def handleImportData {α : Type} [LinearOrder α] (parse : List Char → Option α)
    (text : List Char) : List (CsvPoint α) :=
  let lines := splitOnChar '\n' text
  let newData := (lines.drop 1).filterMap fun l =>
    let line := trimChars l
    if line = [] then none else parseCsvRow parse line
  sortByTime newData

/-- Serialisation of a natural number used by concrete instantiations of the
round-trip theorem: `n` is printed as `n + 1` copies of the letter x. -/
def xToStr (n : ℕ) : List Char := List.replicate (n + 1) 'x'

/-- Parser inverting `xToStr`. -/
def xParse (cs : List Char) : Option ℕ :=
  if cs ≠ [] ∧ ∀ c ∈ cs, c = 'x' then some (cs.length - 1) else none

/-- Properties the JavaScript number-formatting/parsing pair guarantees for
every finite value: parsing inverts printing, and the printed token is
non-empty and contains no comma, newline or whitespace. -/
abbrev goodCell {α : Type} (toStr : α → List Char) (parse : List Char → Option α)
    (v : α) : Prop :=
  parse (toStr v) = some v ∧ toStr v ≠ [] ∧
    ∀ c ∈ toStr v, c ≠ ',' ∧ c ≠ '\n' ∧ isJsWhitespace c = false

/-! ## Theorems -/

/-- Once the loop variable is past `xMax` the accumulating loop yields nothing,
whatever the remaining budget. -/
theorem linSweepAux_nil (xMax step x : ℝ) (h : xMax < x) (fuel : ℕ) :
    linSweepAux xMax step fuel x = [] := by
  cases fuel with
  | zero => rfl
  | succ f => simp [linSweepAux, not_le.mpr h]

/-- Length of the accumulating loop when the range is hit exactly after `k`
increments: any budget larger than `k` yields `k + 1` samples. -/
theorem linSweepAux_length (xMax step : ℝ) (hstep : 0 < step) :
    ∀ (k fuel : ℕ) (x : ℝ), x + (k : ℝ) * step = xMax → k < fuel →
      (linSweepAux xMax step fuel x).length = k + 1 := by
  intro k
  induction k with
  | zero =>
    intro fuel x hx hf
    obtain ⟨f, rfl⟩ : ∃ f, fuel = f + 1 := ⟨fuel - 1, by omega⟩
    have hxeq : x = xMax := by push_cast at hx; linarith
    simp only [linSweepAux, if_pos hxeq.le]
    rw [linSweepAux_nil xMax step (x + step) (by linarith) f]
    simp
  | succ k ih =>
    intro fuel x hx hf
    obtain ⟨f, rfl⟩ : ∃ f, fuel = f + 1 := ⟨fuel - 1, by omega⟩
    push_cast at hx
    have hpos : 0 < ((k : ℝ) + 1) * step := by positivity
    have hxlt : x < xMax := by linarith
    simp only [linSweepAux, if_pos hxlt.le]
    rw [List.length_cons, ih f (x + step) (by linear_combination hx) (by omega)]

/-- Stability of the accumulating loop: as soon as some iterate exceeds
`xMax`, the produced list does not depend on the budget, so the fuel-based
embedding agrees with the unbounded source loop whenever the latter
terminates. -/
theorem linSweepAux_stable (xMax step : ℝ) :
    ∀ (n : ℕ) (x : ℝ), xMax < x + (n : ℝ) * step →
      ∀ fuel, n ≤ fuel → linSweepAux xMax step fuel x = linSweepAux xMax step n x := by
  intro n
  induction n with
  | zero =>
    intro x hx fuel _
    have hlt : xMax < x := by simpa using hx
    rw [linSweepAux_nil xMax step x hlt fuel, linSweepAux_nil xMax step x hlt 0]
  | succ n ih =>
    intro x hx fuel hfuel
    obtain ⟨f, rfl⟩ : ∃ f, fuel = f + 1 := ⟨fuel - 1, by omega⟩
    push_cast at hx
    by_cases hx0 : x ≤ xMax
    · simp only [linSweepAux, if_pos hx0]
      have h2 : xMax < (x + step) + (n : ℝ) * step := by linarith
      rw [ih (x + step) h2 f (by omega)]
    · simp only [linSweepAux, if_neg hx0]

/-- Claim C1 as amended: for every `xMin < xMax` (and any iteration budget
covering the 201 iterations of the source loop) the linear neutron sweep
yields exactly 201 points and the log sweep yields exactly 201 points; the
swept log coordinates are strictly increasing provided additionally
`0.1 < xMax` (when `xMax ≤ 0.1` the floored lower bound `max(0.1, xMin)` is
at least `xMax`, so the coordinates descend or stay constant instead). -/
theorem linear_and_log_sweep_counts (xMin xMax : ℝ) (p : Params) (fuel : ℕ)
    (h : xMin < xMax) (hfuel : 201 ≤ fuel) :
    (calculateNeutronPropertiesLinear xMin xMax p fuel).length = 201 ∧
    (calculateNeutronPropertiesLog xMin xMax p).length = 201 ∧
    (0.1 < xMax → List.Chain' (· < ·) (logSweepXs xMin xMax)) := by
  refine ⟨?_, ?_, ?_⟩
  · unfold calculateNeutronPropertiesLinear
    rw [List.length_map]
    have hstep : 0 < (xMax - xMin) / 200 := div_pos (by linarith) (by norm_num)
    have := linSweepAux_length xMax ((xMax - xMin) / 200) hstep 200 fuel xMin
      (by push_cast; ring) (by omega)
    simpa using this
  · simp [calculateNeutronPropertiesLog, logSweepXs]
  · intro hx
    unfold logSweepXs
    rw [List.chain'_map]
    refine (List.chain'_range_succ _ 200).mpr ?_
    intro m hm
    simp only [logSweepX]
    apply (Real.rpow_lt_rpow_left_iff (by norm_num : (1 : ℝ) < 10)).mpr
    have heff : (0 : ℝ) < max 0.1 xMin :=
      lt_of_lt_of_le (by norm_num) (le_max_left _ _)
    have hefflt : max 0.1 xMin < xMax := max_lt hx h
    have hstep : 0 < (Real.logb 10 xMax - Real.logb 10 (max 0.1 xMin)) / 200 := by
      apply div_pos ?_ (by norm_num)
      have := Real.logb_lt_logb (show (1 : ℝ) < 10 by norm_num) heff hefflt
      linarith
    push_cast
    generalize (Real.logb 10 xMax - Real.logb 10 (max 0.1 xMin)) / 200 = S at hstep ⊢
    have hexp : ((m : ℝ) + 1) * S = (m : ℝ) * S + S := by ring
    linarith

/-- Witness for C1 as amended at the range `[0, 1]`, the default parameters
and budget 201. -/
theorem linear_and_log_sweep_counts_witness :
    ((0 : ℝ) < 1 ∧ (201 : ℕ) ≤ 201) ∧
      ((calculateNeutronPropertiesLinear 0 1 defaultParams 201).length = 201 ∧
      (calculateNeutronPropertiesLog 0 1 defaultParams).length = 201 ∧
      ((0.1 : ℝ) < 1 → List.Chain' (· < ·) (logSweepXs 0 1))) :=
  ⟨⟨by norm_num, le_refl 201⟩,
    linear_and_log_sweep_counts 0 1 defaultParams 201 (by norm_num) (le_refl 201)⟩

/-- Counterexample to claim C1: over the range `[0.01, 0.05]` (which satisfies
`xMin < xMax`) the log sweep's coordinates are not strictly increasing,
because the lower bound is floored to `0.1`, above the upper bound. -/
theorem log_sweep_not_strictMono_counterexample :
    (0.01 : ℝ) < 0.05 ∧ ¬ List.Chain' (· < ·) (logSweepXs 0.01 0.05) := by
  refine ⟨by norm_num, ?_⟩
  intro hchain
  unfold logSweepXs at hchain
  rw [List.chain'_map] at hchain
  have h01 := (List.chain'_range_succ _ 200).mp hchain 0 (by norm_num)
  have hmax : max (0.1 : ℝ) 0.01 = 0.1 := max_eq_left (by norm_num)
  have hlt : Real.logb 10 0.05 < Real.logb 10 0.1 :=
    Real.logb_lt_logb (by norm_num) (by norm_num) (by norm_num)
  have h10 : logSweepX 0.01 0.05 1 < logSweepX 0.01 0.05 0 := by
    simp only [logSweepX, hmax]
    apply (Real.rpow_lt_rpow_left_iff (by norm_num : (1 : ℝ) < 10)).mpr
    push_cast
    linarith
  exact absurd h01 (not_lt.mpr h10.le)

/-- Claim C2 as amended: for every range with `xMin ≠ xMax` the He-3 time
sweep and the linear neutron sweep terminate (some iterate of the loop
variable exceeds `xMax`; in a reversed range this happens immediately and the
loop body never runs), and the log-mode sweep always produces its 201 points.
With `xMin = xMax` the two linear loops never terminate — see the
counterexample — so the original claim's degenerate case fails. -/
theorem sweep_terminates_of_ne (xMin xMax : ℝ) (p : Params) (h : xMin ≠ xMax) :
    linLoopTerminates xMin xMax ((xMax - xMin) / 100) ∧
    linLoopTerminates xMin xMax ((xMax - xMin) / 200) ∧
    (calculateNeutronPropertiesLog xMin xMax p).length = 201 := by
  have hlog : (calculateNeutronPropertiesLog xMin xMax p).length = 201 := by
    simp [calculateNeutronPropertiesLog, logSweepXs]
  rcases lt_or_gt_of_ne h with hlt | hgt
  · refine ⟨⟨101, ?_⟩, ⟨201, ?_⟩, hlog⟩
    · push_cast
      linarith
    · push_cast
      linarith
  · refine ⟨⟨0, ?_⟩, ⟨0, ?_⟩, hlog⟩
    · push_cast
      linarith
    · push_cast
      linarith

/-- Witness for C2 as amended at the range `[0, 1]` and the default
parameters. -/
theorem sweep_terminates_of_ne_witness :
    (0 : ℝ) ≠ 1 ∧
      (linLoopTerminates 0 1 ((1 - 0) / 100) ∧
      linLoopTerminates 0 1 ((1 - 0) / 200) ∧
      (calculateNeutronPropertiesLog 0 1 defaultParams).length = 201) :=
  ⟨by norm_num, sweep_terminates_of_ne 0 1 defaultParams (by norm_num)⟩

/-- Counterexample to claim C2: with the degenerate range `xMin = xMax = 24`
the loop increment is zero and the loop condition `x ≤ xMax` holds forever, so
neither the He-3 time sweep nor the linear neutron sweep terminates. -/
theorem sweep_nonterminating_at_equal_bounds :
    ¬ linLoopTerminates 24 24 ((24 - 24) / 100) ∧
    ¬ linLoopTerminates 24 24 ((24 - 24) / 200) := by
  constructor <;>
  · rintro ⟨i, hi⟩
    norm_num at hi

/-- Claim C3: for every wavelength, He-3 polarization fraction in `[0, 1]` and
gas thickness, the neutron transmission is
`exp(-commonFactor·d) · cosh(commonFactor·d·P_He) · 100`: the attenuation
exponent uses the full factor `commonFactor·d` while only the `cosh` argument
is scaled by `P_He` (in both variants of the component). -/
theorem neutronTransmission_formula (w Phe d : ℝ) (h0 : 0 ≤ Phe) (h1 : Phe ≤ 1) :
    calculateNeutronTransmission w Phe d =
      Real.exp (-(calculateCommonFactors w * d)) *
        Real.cosh (calculateCommonFactors w * d * Phe) * 100 ∧
    calculateNeutronTransmissionMolar w Phe d =
      Real.exp (-(calculateCommonFactorsMolar w * d)) *
        Real.cosh (calculateCommonFactorsMolar w * d * Phe) * 100 :=
  ⟨rfl, rfl⟩

/-- Witness for C3 at wavelength 1.8, fraction 0.7, thickness 10. -/
theorem neutronTransmission_formula_witness :
    ((0 : ℝ) ≤ 0.7 ∧ (0.7 : ℝ) ≤ 1) ∧
      (calculateNeutronTransmission 1.8 0.7 10 =
        Real.exp (-(calculateCommonFactors 1.8 * 10)) *
          Real.cosh (calculateCommonFactors 1.8 * 10 * 0.7) * 100 ∧
      calculateNeutronTransmissionMolar 1.8 0.7 10 =
        Real.exp (-(calculateCommonFactorsMolar 1.8 * 10)) *
          Real.cosh (calculateCommonFactorsMolar 1.8 * 10 * 0.7) * 100) :=
  ⟨⟨by norm_num, by norm_num⟩,
    neutronTransmission_formula 1.8 0.7 10 (by norm_num) (by norm_num)⟩

/-- Claim C4: the figure of merit equals the squared neutron-polarization
fraction times the transmission fraction, converted back to percent. -/
theorem figureOfMerit_eq_polarization_sq_mul_transmission (w Phe d : ℝ) :
    calculateFigureOfMerit w Phe d =
      (calculateNeutronPolarization w Phe d / 100) ^ 2 *
        (calculateNeutronTransmission w Phe d / 100) * 100 := by
  simp only [calculateFigureOfMerit, calculateNeutronPolarization,
    calculateNeutronTransmission]
  ring

/-- Claim C5: converting a positive energy to a wavelength via
`λ = sqrt(81.81 / E)` and back via `E = 81.81 / λ²` is the identity, and
symmetrically for a positive wavelength. -/
theorem energy_wavelength_roundTrip (E lam : ℝ) (hE : 0 < E) (hlam : 0 < lam) :
    energyFromWavelength (wavelengthFromEnergy E) = E ∧
    wavelengthFromEnergy (energyFromWavelength lam) = lam := by
  constructor
  · unfold energyFromWavelength wavelengthFromEnergy
    rw [Real.mul_self_sqrt (by positivity)]
    rw [div_div_eq_mul_div, mul_comm (81.81 : ℝ) E]
    exact mul_div_cancel_right₀ E (by norm_num)
  · unfold energyFromWavelength wavelengthFromEnergy
    have h : (81.81 : ℝ) / (81.81 / (lam * lam)) = lam * lam := by
      rw [div_div_eq_mul_div, mul_comm (81.81 : ℝ) (lam * lam)]
      exact mul_div_cancel_right₀ (lam * lam) (by norm_num)
    rw [h, Real.sqrt_mul_self hlam.le]

/-- Witness for C5 at energy 4 and wavelength 3. -/
theorem energy_wavelength_roundTrip_witness :
    ((0 : ℝ) < 4 ∧ (0 : ℝ) < 3) ∧
      (energyFromWavelength (wavelengthFromEnergy 4) = 4 ∧
      wavelengthFromEnergy (energyFromWavelength 3) = 3) :=
  ⟨⟨by norm_num, by norm_num⟩,
    energy_wavelength_roundTrip 4 3 (by norm_num) (by norm_num)⟩

/-- Claim C6: for fixed positive initial polarization and relaxation time
constant, the He-3 decay is antitone in time, both as the inline decay
expression of the plot component and as `calculatePolarization` of the
decay-calculator component. -/
theorem he3Decay_antitone (P0 T1 t1 t2 : ℝ) (cp : CalculationParams)
    (hP0 : 0 < P0) (hT1 : 0 < T1)
    (hcpP : 0 < cp.initialPolarization) (hcpT : 0 < cp.relaxationTimeConstant)
    (ht : t1 ≤ t2) :
    he3Decay t2 P0 T1 ≤ he3Decay t1 P0 T1 ∧
    calculatePolarization t2 cp ≤ calculatePolarization t1 cp := by
  constructor
  · unfold he3Decay
    have h1 : -t2 / T1 ≤ -t1 / T1 := by
      apply div_le_div_of_nonneg_right ?_ hT1.le
      linarith
    exact mul_le_mul_of_nonneg_left (Real.exp_le_exp.mpr h1) hP0.le
  · simp only [calculatePolarization]
    have h1 : -(t2 / 60) / cp.relaxationTimeConstant ≤
        -(t1 / 60) / cp.relaxationTimeConstant := by
      apply div_le_div_of_nonneg_right ?_ hcpT.le
      have : t1 / 60 ≤ t2 / 60 := by linarith
      linarith
    exact mul_le_mul_of_nonneg_left (Real.exp_le_exp.mpr h1) hcpP.le

/-- Witness for C6 at P0 = 70, T1 = 100, times 1 ≤ 2, with the default
decay-calculator parameter record. -/
theorem he3Decay_antitone_witness :
    ((0 : ℝ) < 70 ∧ (0 : ℝ) < 100 ∧
      (0 : ℝ) < (CalculationParams.mk 1 70 100).initialPolarization ∧
      (0 : ℝ) < (CalculationParams.mk 1 70 100).relaxationTimeConstant ∧
      (1 : ℝ) ≤ 2) ∧
      (he3Decay 2 70 100 ≤ he3Decay 1 70 100 ∧
      calculatePolarization 2 (CalculationParams.mk 1 70 100) ≤
        calculatePolarization 1 (CalculationParams.mk 1 70 100)) :=
  ⟨⟨by norm_num, by norm_num, by norm_num, by norm_num, by norm_num⟩,
    he3Decay_antitone 70 100 1 2 (CalculationParams.mk 1 70 100)
      (by norm_num) (by norm_num) (by norm_num) (by norm_num) (by norm_num)⟩

/-- Counterexample to claim C8: the He-3 commit of the current main component
does not leave the neutron parameters unchanged — it overwrites them with the
edit buffer's neutron sub-object (here thickness 5 replaces the committed
thickness 10). -/
theorem he3Commit_overwrites_neutronParams_counterexample :
    (he3CommitParams
        { initialPolarization := 70, relaxationTimeConstant := 100,
          xAxisUnit := XAxisUnit.wavelength,
          neutronParams := { gasThickness := 10, energy := 14.7, he3Polarization := 70 } }
        { initialPolarization := 70, relaxationTimeConstant := 100,
          xAxisUnit := XAxisUnit.wavelength,
          neutronParams := { gasThickness := 5, energy := 14.7, he3Polarization := 70 } }).neutronParams
      ≠ ({ gasThickness := 10, energy := 14.7, he3Polarization := 70 } : NeutronParams) := by
  intro h
  have hg := congrArg NeutronParams.gasThickness h
  simp only [he3CommitParams] at hg
  norm_num at hg

/-- Claim C8 as amended: the Neutron commit replaces only `neutronParams`
(initial polarization, relaxation time constant and the axis unit are
unchanged); the earlier variant's He-3 commit replaces only the two He-3
scalars; the current variant's He-3 commit replaces the two He-3 scalars AND
`neutronParams` from the edit buffer, leaving only `xAxisUnit` unchanged. -/
theorem commit_frame_conditions (p t : Params) :
    (neutronCommitParams p t).initialPolarization = p.initialPolarization ∧
    (neutronCommitParams p t).relaxationTimeConstant = p.relaxationTimeConstant ∧
    (neutronCommitParams p t).xAxisUnit = p.xAxisUnit ∧
    (neutronCommitParams p t).neutronParams = t.neutronParams ∧
    (he3CommitParamsEarlier p t).initialPolarization = t.initialPolarization ∧
    (he3CommitParamsEarlier p t).relaxationTimeConstant = t.relaxationTimeConstant ∧
    (he3CommitParamsEarlier p t).xAxisUnit = p.xAxisUnit ∧
    (he3CommitParamsEarlier p t).neutronParams = p.neutronParams ∧
    (he3CommitParams p t).initialPolarization = t.initialPolarization ∧
    (he3CommitParams p t).relaxationTimeConstant = t.relaxationTimeConstant ∧
    (he3CommitParams p t).xAxisUnit = p.xAxisUnit ∧
    (he3CommitParams p t).neutronParams = t.neutronParams :=
  ⟨rfl, rfl, rfl, rfl, rfl, rfl, rfl, rfl, rfl, rfl, rfl, rfl⟩

/-- Claim C10 as amended: for every range whose neutron `xMax` field parses to
a negative number, the log sweep still runs its 201 iterations and every swept
coordinate is NaN (`Math.log10` of the negative upper bound is NaN and NaN
propagates through the whole pipeline).  An `xMax` that parses to 0 does not
behave this way: it is falsy, so the `|| 10` fallback replaces it before the
sweep — see the counterexample. -/
theorem log_sweep_nan_for_negative_xMax (xMinRaw : JSNum) (m : ℝ) (hm : m < 0) :
    jsLogSweepXs xMinRaw (JSNum.fin m) = List.replicate 201 JSNum.nan := by
  refine List.eq_replicate_iff.mpr ⟨by simp [jsLogSweepXs], ?_⟩
  intro x hx
  simp only [jsLogSweepXs, List.mem_map] at hx
  obtain ⟨i, -, rfl⟩ := hx
  simp only [jsLogSweepX]
  rw [show neutronXMaxResolved (JSNum.fin m) = JSNum.fin m from by
    simp [neutronXMaxResolved, jsOr, hm.ne]]
  rw [show jsLog10 (JSNum.fin m) = JSNum.nan from by simp [jsLog10, hm]]
  generalize jsLog10 (jsMax (JSNum.fin 0.1) (neutronXMinResolved xMinRaw)) = L
  cases L <;> rfl

/-- Witness for C10 as amended at a lower-bound field parsing to 0 and an
upper-bound field parsing to -1. -/
theorem log_sweep_nan_for_negative_xMax_witness :
    (-1 : ℝ) < 0 ∧
      jsLogSweepXs (JSNum.fin 0) (JSNum.fin (-1)) = List.replicate 201 JSNum.nan :=
  ⟨by norm_num, log_sweep_nan_for_negative_xMax (JSNum.fin 0) (-1) (by norm_num)⟩

/-- Counterexample to claim C10: with an `xMax` field parsing to 0 (which
satisfies `xMax ≤ 0`) the falsy fallback substitutes the default upper bound
10, and the first swept coordinate is an ordinary finite number, not NaN. -/
theorem log_sweep_xMax_zero_not_nan_counterexample :
    (0 : ℝ) ≤ 0 ∧
    jsLogSweepX (JSNum.fin 0) (JSNum.fin 0) 0 ∈ jsLogSweepXs (JSNum.fin 0) (JSNum.fin 0) ∧
    jsLogSweepX (JSNum.fin 0) (JSNum.fin 0) 0 ≠ JSNum.nan := by
  refine ⟨le_refl 0, ?_, ?_⟩
  · exact List.mem_map_of_mem _ (by simp)
  · intro hnan
    norm_num [jsLogSweepX, neutronXMinResolved, neutronXMaxResolved, jsOr, jsMax,
      jsLog10, jsSub, jsNeg, jsAdd, jsDiv, jsMul, jsPow10,
      max_eq_left (show (0 : ℝ) ≤ (0.1 : ℝ) by norm_num)] at hnan
    exact JSNum.noConfusion hnan

/-- Claim C9: an axis-range field whose parse is falsy (NaN or 0) is silently
replaced by the hard-coded default bound: 24 for the He-3 upper bound, 0 and
10 for the neutron bounds. -/
theorem axis_fallback_substitutes_defaults (v : JSNum)
    (h : v = JSNum.nan ∨ v = JSNum.fin 0) :
    he3XMaxResolved v = JSNum.fin 24 ∧
    neutronXMinResolved v = JSNum.fin 0 ∧
    neutronXMaxResolved v = JSNum.fin 10 := by
  rcases h with h | h <;> subst h <;>
    simp [he3XMaxResolved, neutronXMinResolved, neutronXMaxResolved, jsOr]

/-- Witness for C9 at a field that parses to 0. -/
theorem axis_fallback_substitutes_defaults_witness :
    (JSNum.fin 0 = JSNum.nan ∨ JSNum.fin 0 = JSNum.fin 0) ∧
      (he3XMaxResolved (JSNum.fin 0) = JSNum.fin 24 ∧
      neutronXMinResolved (JSNum.fin 0) = JSNum.fin 0 ∧
      neutronXMaxResolved (JSNum.fin 0) = JSNum.fin 10) :=
  ⟨Or.inr rfl, axis_fallback_substitutes_defaults (JSNum.fin 0) (Or.inr rfl)⟩

/-- Splitting a separator-free text yields the single segment. -/
theorem splitOnChar_of_not_mem (c : Char) (xs : List Char) (h : c ∉ xs) :
    splitOnChar c xs = [xs] := by
  induction xs with
  | nil => rfl
  | cons a rest ih =>
    rw [List.mem_cons, not_or] at h
    obtain ⟨ha, hrest⟩ := h
    simp only [splitOnChar, if_neg (Ne.symm ha)]
    rw [ih hrest]

/-- Splitting peels off a separator-free first segment. -/
theorem splitOnChar_append_cons (c : Char) (xs ys : List Char) (h : c ∉ xs) :
    splitOnChar c (xs ++ c :: ys) = xs :: splitOnChar c ys := by
  induction xs with
  | nil => simp [splitOnChar]
  | cons a rest ih =>
    rw [List.mem_cons, not_or] at h
    obtain ⟨ha, hrest⟩ := h
    simp only [List.cons_append, splitOnChar, if_neg (Ne.symm ha)]
    rw [List.append_eq, ih hrest]

/-- Splitting inverts joining for a non-empty list of separator-free
segments. -/
theorem splitOnChar_joinWith (c : Char) (ls : List (List Char)) (hne : ls ≠ [])
    (h : ∀ l ∈ ls, c ∉ l) : splitOnChar c (joinWith c ls) = ls := by
  induction ls with
  | nil => exact absurd rfl hne
  | cons l rest ih =>
    cases rest with
    | nil =>
      simp only [joinWith]
      exact splitOnChar_of_not_mem c l (h l (List.mem_cons_self l []))
    | cons l2 rest2 =>
      simp only [joinWith]
      rw [splitOnChar_append_cons c l _ (h l (List.mem_cons_self l _))]
      rw [ih (by simp) fun x hx => h x (List.mem_cons_of_mem l hx)]

/-- Trimming a line with no whitespace characters is the identity. -/
theorem trimChars_of_no_ws (cs : List Char)
    (h : ∀ ch ∈ cs, isJsWhitespace ch = false) : trimChars cs = cs := by
  have hdrop : ∀ l : List Char, (∀ ch ∈ l, isJsWhitespace ch = false) →
      l.dropWhile isJsWhitespace = l := by
    intro l hl
    cases l with
    | nil => rfl
    | cons a t => simp [List.dropWhile, hl a (List.mem_cons_self a t)]
  unfold trimChars
  rw [hdrop cs h]
  rw [hdrop cs.reverse fun ch hch => h ch (List.mem_reverse.mp hch)]
  exact List.reverse_reverse cs

/-- Parsing an exported row recovers the point. -/
theorem parseCsvRow_exportRow {α : Type} (toStr : α → List Char)
    (parse : List Char → Option α) (p : CsvPoint α)
    (ht : goodCell toStr parse p.time) (hp : goodCell toStr parse p.polarization) :
    parseCsvRow parse (exportRow toStr p) = some p := by
  unfold parseCsvRow exportRow
  rw [splitOnChar_append_cons ',' _ _ fun hc => (ht.2.2 ',' hc).1 rfl]
  rw [splitOnChar_of_not_mem ',' _ fun hc => (hp.2.2 ',' hc).1 rfl]
  simp only [List.map_cons, List.map_nil]
  rw [ht.1, hp.1]

/-- An exported row survives the trim-and-parse step of the import loop. -/
theorem importRow_step {α : Type} (toStr : α → List Char)
    (parse : List Char → Option α) (p : CsvPoint α)
    (ht : goodCell toStr parse p.time) (hp : goodCell toStr parse p.polarization) :
    (fun l : List Char =>
        let line := trimChars l
        if line = [] then none else parseCsvRow parse line) (exportRow toStr p) =
      some p := by
  have hws : ∀ ch ∈ exportRow toStr p, isJsWhitespace ch = false := by
    intro ch hch
    unfold exportRow at hch
    rcases List.mem_append.mp hch with h1 | h2
    · exact (ht.2.2 ch h1).2.2
    · rcases List.mem_cons.mp h2 with rfl | h3
      · rfl
      · exact (hp.2.2 ch h3).2.2
  have htrim : trimChars (exportRow toStr p) = exportRow toStr p :=
    trimChars_of_no_ws _ hws
  have hne : exportRow toStr p ≠ [] := by
    cases h0 : toStr p.time with
    | nil => exact absurd h0 ht.2.1
    | cons a t => simp [exportRow, h0]
  simp only [htrim, if_neg hne]
  exact parseCsvRow_exportRow toStr parse p ht hp

/-- The import loop over the exported rows recovers the original points in
order. -/
theorem importBody_of_export {α : Type} (toStr : α → List Char)
    (parse : List Char → Option α) (pts : List (CsvPoint α))
    (h : ∀ p ∈ pts, goodCell toStr parse p.time ∧ goodCell toStr parse p.polarization) :
    (pts.map (exportRow toStr)).filterMap
        (fun l : List Char =>
          let line := trimChars l
          if line = [] then none else parseCsvRow parse line) = pts := by
  induction pts with
  | nil => rfl
  | cons p rest ih =>
    obtain ⟨⟨ht, hp⟩, hrest⟩ := List.forall_mem_cons.mp h
    simp only [List.map_cons, List.filterMap_cons,
      importRow_step toStr parse p ht hp]
    rw [ih hrest]

/-- Claim C7: exporting a point sequence to CSV (header line plus one
comma-separated row per point) and importing the result (skip the header,
trim, drop rows that fail numeric parse, sort ascending by time) reproduces
exactly the original (time, polarization) pairs sorted by time.  The
theorem is parametric in the platform's number printing/parsing pair,
constrained by `goodCell`. -/
theorem csv_roundTrip {α : Type} [LinearOrder α] (toStr : α → List Char)
    (parse : List Char → Option α) (pts : List (CsvPoint α))
    (h : ∀ p ∈ pts, goodCell toStr parse p.time ∧ goodCell toStr parse p.polarization) :
    handleImportData parse (handleExportData toStr pts) = sortByTime pts ∧
    (handleImportData parse (handleExportData toStr pts)).Perm pts ∧
    List.Sorted (fun p q : CsvPoint α => p.time ≤ q.time)
      (handleImportData parse (handleExportData toStr pts)) := by
  have key : handleImportData parse (handleExportData toStr pts) = sortByTime pts := by
    unfold handleImportData handleExportData
    rw [splitOnChar_append_cons '\n' headerChars _ (by decide)]
    cases pts with
    | nil => rfl
    | cons p rest =>
      have hnl : ∀ l ∈ (p :: rest).map (exportRow toStr), '\n' ∉ l := by
        intro l hl
        obtain ⟨q, hq, rfl⟩ := List.mem_map.mp hl
        obtain ⟨ht, hpq⟩ := h q hq
        intro hc
        unfold exportRow at hc
        rcases List.mem_append.mp hc with h1 | h2
        · exact (ht.2.2 '\n' h1).2.1 rfl
        · rcases List.mem_cons.mp h2 with heq | h3
          · exact absurd heq (by decide)
          · exact (hpq.2.2 '\n' h3).2.1 rfl
      simp only [List.drop_succ_cons, List.drop_zero]
      rw [splitOnChar_joinWith '\n' _ (by simp) hnl]
      exact congrArg sortByTime (importBody_of_export toStr parse (p :: rest) h)
  refine ⟨key, ?_, ?_⟩
  · rw [key]
    exact List.perm_insertionSort _ pts
  · rw [key]
    haveI : IsTotal (CsvPoint α) fun p q => p.time ≤ q.time :=
      ⟨fun a b => le_total a.time b.time⟩
    haveI : IsTrans (CsvPoint α) fun p q => p.time ≤ q.time :=
      ⟨fun a b c hab hbc => le_trans hab hbc⟩
    exact List.sorted_insertionSort _ pts

/-- Witness for C7: two concrete points round-tripped through the CSV text
with the concrete serialisation `xToStr` / `xParse`. -/
theorem csv_roundTrip_witness :
    (∀ p ∈ ([⟨2, 5⟩, ⟨1, 3⟩] : List (CsvPoint ℕ)),
        goodCell xToStr xParse p.time ∧ goodCell xToStr xParse p.polarization) ∧
      (handleImportData xParse (handleExportData xToStr ([⟨2, 5⟩, ⟨1, 3⟩] : List (CsvPoint ℕ))) =
          sortByTime [⟨2, 5⟩, ⟨1, 3⟩] ∧
        (handleImportData xParse
            (handleExportData xToStr ([⟨2, 5⟩, ⟨1, 3⟩] : List (CsvPoint ℕ)))).Perm
          [⟨2, 5⟩, ⟨1, 3⟩] ∧
        List.Sorted (fun p q : CsvPoint ℕ => p.time ≤ q.time)
          (handleImportData xParse
            (handleExportData xToStr ([⟨2, 5⟩, ⟨1, 3⟩] : List (CsvPoint ℕ))))) :=
  ⟨by decide, csv_roundTrip xToStr xParse ([⟨2, 5⟩, ⟨1, 3⟩] : List (CsvPoint ℕ)) (by decide)⟩

end He3
